import Mathlib

/-!
Verification of the Smart-Energy-Tracker analytical core against its
natural-language specification.  The definitions below are shallow
embeddings of the TypeScript source: machine floats are modelled as
rationals, `Number.parseFloat` results as `Option ℚ` (`none` = `NaN`),
`Number.POSITIVE_INFINITY` slab bounds as `Option ℚ` (`none` = infinity),
and `x.toFixed(2)` as rounding to two decimal places.
-/

/-- `x.toFixed(2)`: round a monetary amount to two decimal places. -/
def round2 (q : ℚ) : ℚ := (round (100 * q) : ℤ) / 100

/-- One tariff slab from the table in
`src/components/quantum-calculator.tsx` (`{ from, to, rate }`);
`to = none` encodes `Number.POSITIVE_INFINITY`. -/
structure Slab where
  from_ : ℚ
  to_ : Option ℚ
  rate : ℚ
deriving DecidableEq, Repr

/-- One breakup row pushed by the slab loop (`breakdown.push {...}`);
the stored `amount` is `(slabUnits * rate).toFixed(2)`. -/
structure BreakupRow where
  from_ : ℚ
  to_ : Option ℚ
  units : ℚ
  rate : ℚ
  amount : ℚ
deriving DecidableEq, Repr

/-- `units`, `total_amount`, `breakup` as set by `setResult` in
`quantum-calculator.tsx`; `total_amount` is `totalAmount.toFixed(2)`. -/
structure BillResult where
  units : ℚ
  total_amount : ℚ
  breakup : List BreakupRow
deriving DecidableEq, Repr

/-- `Math.min(remainingUnits, slab.to - slab.from + 1)`; for the unbounded
last slab the capacity is `Infinity`, so the whole remainder is consumed. -/
def slabConsume (s : Slab) (remaining : ℚ) : ℚ :=
  match s.to_ with
  | none => remaining
  | some t => min remaining (t - s.from_ + 1)

/-- The breakup row built for a slab that consumed `u` units. -/
def mkRow (s : Slab) (u : ℚ) : BreakupRow :=
  ⟨s.from_, s.to_, u, s.rate, round2 (u * s.rate)⟩

/-- The `for (const slab of slabs)` loop of `calculateBill`: returns the
breakup rows and the unrounded accumulated `totalAmount`.  The loop
`break`s as soon as `remainingUnits <= 0`. -/
def runSlabs : List Slab → ℚ → List BreakupRow × ℚ
  | [], _ => ([], 0)
  | s :: rest, remaining =>
    if remaining ≤ 0 then ([], 0)
    else
      let u := slabConsume s remaining
      let next := runSlabs rest (remaining - u)
      (mkRow s u :: next.1, u * s.rate + next.2)

/-- The TNEB slab table hard-coded in `quantum-calculator.tsx`. -/
def tnebSlabs : List Slab :=
  [⟨0, some 100, 0⟩,
   ⟨101, some 200, 9/4⟩,
   ⟨201, some 500, 9/2⟩,
   ⟨501, some 1000, 6⟩,
   ⟨1001, none, 8⟩]

/-- The bill computation of `calculateBill` in `quantum-calculator.tsx`
after the input guard: walk the slabs, then round the total for display. -/
def calculateBill (unitsValue : ℚ) : BillResult :=
  let r := runSlabs tnebSlabs unitsValue
  ⟨unitsValue, round2 r.2, r.1⟩

/-- The full `calculateBill` handler of `quantum-calculator.tsx`:
`Number.parseFloat(units)` is modelled as `Option ℚ` (`none` = `NaN`);
`if (isNaN(unitsValue) || unitsValue <= 0) return` yields no result. -/
def quantumCalculate (parsed : Option ℚ) : Option BillResult :=
  match parsed with
  | none => none
  | some u => if u ≤ 0 then none else some (calculateBill u)

/-- Outcome of the `calculateBill` handler in
`src/components/bill-calculator.tsx`: either an error message is set, or
the request proceeds to the backend with the given units value. -/
inductive BillCalcAction where
  | reject (message : String)
  | request (units : ℚ)
deriving DecidableEq, Repr

/-- Input validation of `calculateBill` in `bill-calculator.tsx`:
`NaN` or `unitsValue <= 0` sets the invalid-units error, `unitsValue >
10000` sets the too-high error, otherwise `/api/bill?units=` is fetched. -/
def billCalculatorSubmit (parsed : Option ℚ) : BillCalcAction :=
  match parsed with
  | none => .reject "Please enter a valid number of units (greater than 0)"
  | some u =>
    if u ≤ 0 then .reject "Please enter a valid number of units (greater than 0)"
    else if 10000 < u then .reject "Units seem too high. Please check your input."
    else .request u

/-- A slab whose bounded capacity `to - from + 1` is positive. -/
def capPos (s : Slab) : Prop := ∀ t, s.to_ = some t → 0 < t - s.from_ + 1

/-- The `bill` sub-object of a forecast (`bill: { total_amount: ... }`). -/
structure ForecastBill where
  total_amount : ℚ
deriving DecidableEq, Repr

/-- The forecast object consumed by `professional-dashboard.tsx`:
`predicted_kwh`, `bill.total_amount`, `daily_avg_kwh`, `daily_avg_cost`,
`prediction_period_days`, `confidence`.  Numeric fields carry the values
after the `.toFixed(2)` formatting applied by the fallback branch. -/
structure ForecastResult where
  predicted_kwh : ℚ
  bill : ForecastBill
  daily_avg_kwh : ℚ
  daily_avg_cost : ℚ
  prediction_period_days : ℕ
  confidence : String
deriving DecidableEq, Repr

/-- `baseData.predicted_kwh * multiplier` with
`multiplier = Number.parseInt(period) / 30`: the raw (unrounded)
quantity the fallback branch scales from the 30-day base prediction. -/
def fallbackRaw (base : ℚ) (days : ℕ) : ℚ := base * ((days : ℚ) / 30)

/-- The client-side fallback of `handlePredictionPeriodChange` in
`professional-dashboard.tsx`, taken when `/api/predict` answers with an
error status or the fetch throws: every field is scaled from the 30-day
base prediction and formatted with `.toFixed(2)`. -/
def fallbackForecast (basePredictedKwh baseBillTotal : ℚ) (days : ℕ) :
    ForecastResult :=
  { predicted_kwh := round2 (fallbackRaw basePredictedKwh days)
    bill := ⟨round2 (fallbackRaw baseBillTotal days)⟩
    daily_avg_kwh := round2 (fallbackRaw basePredictedKwh days / (days : ℚ))
    daily_avg_cost := round2 (fallbackRaw baseBillTotal days / (days : ℚ))
    prediction_period_days := days
    confidence := "estimated" }

/-- Modelled from the spec: the backend `/api/predict` forecaster is not
under `src/`; per §4.5 its `daily_avg_kwh` and `daily_avg_cost` are always
`predicted_kwh / horizonDays` and `bill.total_amount / horizonDays`,
never independently computed. -/
def serverForecast (predictedKwh billTotal : ℚ) (horizonDays : ℕ)
    (conf : String) : ForecastResult :=
  { predicted_kwh := predictedKwh
    bill := ⟨billTotal⟩
    daily_avg_kwh := predictedKwh / (horizonDays : ℚ)
    daily_avg_cost := billTotal / (horizonDays : ℚ)
    prediction_period_days := horizonDays
    confidence := conf }

/-- Outcome of validating the `days` tool parameter. -/
inductive DaysValidation where
  | accepted (days : ℚ)
  | rejected (reason : String)
deriving DecidableEq, Repr

/-- The `days` schema of `getPredictedBillAndTariff` in the chat-tool
layer: `z.number().int().min(1).max(365).optional()`, with the default
`30` applied by `execute` when the parameter is absent.  A rational with
denominator 1 models a JavaScript number passing `Number.isInteger`. -/
def validateDaysParam (days : Option ℚ) : DaysValidation :=
  match days with
  | none => .accepted 30
  | some d =>
    if d.den ≠ 1 then .rejected "Expected integer"
    else if d < 1 then .rejected "Number must be greater than or equal to 1"
    else if 365 < d then .rejected "Number must be less than or equal to 365"
    else .accepted d

/-- The default `timeoutMs` of `fetchJSON` in the chat-tool layer: every
backend call, the weather lookup included, is aborted after this bound. -/
def fetchJSONDefaultTimeoutMs : ℕ := 10000

/-- Weather payload returned by the lookup (temperature, condition,
humidity per §6). -/
structure WeatherData where
  temperature : ℚ
  condition : String
  humidity : ℚ
deriving DecidableEq, Repr

/-- What a chat tool hands back to its caller: either the fetched value
or an error-tagged object (`{ error: ... }`); nothing is ever thrown. -/
inductive ToolOutput (α : Type) where
  | value (a : α)
  | errorTagged (message : String)
deriving DecidableEq, Repr

/-- `getWeatherData.execute`: the fetch outcome (`Except.error` models a
timeout/abort or any other rejection) is caught and converted into an
error-tagged result, so the failure never escapes the tool. -/
def getWeatherDataExecute (city : String) (outcome : Except String WeatherData) :
    ToolOutput WeatherData :=
  match outcome with
  | .ok w => .value w
  | .error e =>
    .errorTagged ("Failed to fetch weather data for " ++ city ++ ": " ++ e)

/-- Modelled from the spec: the backend analytical core is not under
`src/`; per §5 the external weather lookup is its only network-blocking
operation, so the core's network effects are modelled as this
single-element list. -/
def coreNetworkOperations : List String := ["weather-lookup"]

/-- One uploaded energy reading (the sample schema in the upload page). -/
structure Reading where
  timestamp : String
  power : ℚ
  voltage : ℚ
  current : ℚ
  energy : ℚ
deriving DecidableEq, Repr

/-- How `JSON.parse(text)` and the `Array.isArray` guard turned out. -/
inductive ParseOutcome where
  | failure
  | nonArray
  | array (readings : List Reading)
deriving DecidableEq, Repr

/-- The server's answer once `fetch` and `response.json()` both succeed:
`ok` is `response.ok`, `statusSuccess` is `result.status === "success"`. -/
structure ServerReply where
  ok : Bool
  statusSuccess : Bool
deriving DecidableEq, Repr

/-- The environment one call of `DataUpload.handleFile` runs in. -/
structure UploadAttempt where
  fileNameIsJson : Bool
  connected : Bool
  parse : ParseOutcome
  reply : Option ServerReply
deriving DecidableEq, Repr

/-- State owned by the parent of `DataUpload`: the loaded reading set
(written by `onDataUpload`) and the number of dashboard recomputes
(`onDataLoaded` triggers one). -/
structure AppState where
  uploadedData : List Reading
  recomputeCount : ℕ
deriving DecidableEq, Repr

/-- The final visible status of one `handleFile` call. -/
inductive UploadStatusType where
  | success
  | error
deriving DecidableEq, Repr

/-- `DataUpload.handleFile`: every guard failure, parse failure,
non-array payload, network failure, and server rejection ends in the
`catch`/error branch without touching the parent state; only
`response.ok && result.status === "success"` invokes `onDataUpload(data)`
and `onDataLoaded()`. -/
def handleFile (a : UploadAttempt) (st : AppState) : UploadStatusType × AppState :=
  if !a.fileNameIsJson then (.error, st)
  else if !a.connected then (.error, st)
  else match a.parse with
    | .failure => (.error, st)
    | .nonArray => (.error, st)
    | .array data =>
      match a.reply with
      | none => (.error, st)
      | some r =>
        if r.ok && r.statusSuccess then
          (.success, ⟨data, st.recomputeCount + 1⟩)
        else (.error, st)

lemma round2_mono {x y : ℚ} (h : x ≤ y) : round2 x ≤ round2 y := by
  unfold round2
  have hr : round (100 * x) ≤ round (100 * y) := by
    rw [round_eq, round_eq]
    exact Int.floor_le_floor (by linarith)
  have hq : ((round (100 * x) : ℤ) : ℚ) ≤ ((round (100 * y) : ℤ) : ℚ) := by
    exact_mod_cast hr
  linarith

lemma abs_round2_sub (q : ℚ) : |round2 q - q| ≤ 1 / 200 := by
  have h := abs_sub_round (100 * q)
  rw [abs_sub_comm] at h
  have heq : round2 q - q = (((round (100 * q) : ℤ) : ℚ) - 100 * q) / 100 := by
    unfold round2; ring
  rw [heq, abs_div]
  rw [show |(100 : ℚ)| = 100 by norm_num]
  linarith

lemma slabConsume_le (s : Slab) (r : ℚ) : slabConsume s r ≤ r := by
  unfold slabConsume
  cases h : s.to_ with
  | none => exact le_refl r
  | some t => exact min_le_left _ _

lemma slabConsume_pos (s : Slab) (hc : capPos s) {r : ℚ} (hr : 0 < r) :
    0 < slabConsume s r := by
  unfold slabConsume
  cases h : s.to_ with
  | none => exact hr
  | some t => exact lt_min hr (hc t h)

lemma slabConsume_mono (s : Slab) {r₁ r₂ : ℚ} (h : r₁ ≤ r₂) :
    slabConsume s r₁ ≤ slabConsume s r₂ := by
  unfold slabConsume
  cases hs : s.to_ with
  | none => exact h
  | some t => exact min_le_min h (le_refl _)

lemma sub_slabConsume_mono (s : Slab) {r₁ r₂ : ℚ} (h : r₁ ≤ r₂) :
    r₁ - slabConsume s r₁ ≤ r₂ - slabConsume s r₂ := by
  unfold slabConsume
  cases hs : s.to_ with
  | none => simp
  | some t =>
    rcases le_total r₁ (t - s.from_ + 1) with h₁ | h₁ <;>
      rcases le_total r₂ (t - s.from_ + 1) with h₂ | h₂ <;>
      simp [min_eq_left, min_eq_right, h₁, h₂] <;> linarith

lemma runSlabs_nonpos (slabs : List Slab) {r : ℚ} (h : r ≤ 0) :
    runSlabs slabs r = ([], 0) := by
  cases slabs <;> simp [runSlabs, h]

/-- Every breakup row records `amount = round((units in slab) * rate, 2)`,
exactly as the loop pushes `amount: (slabUnits * slab.rate).toFixed(2)`. -/
lemma runSlabs_amount (slabs : List Slab) (r : ℚ) :
    ∀ row ∈ (runSlabs slabs r).1, row.amount = round2 (row.units * row.rate) := by
  induction slabs generalizing r with
  | nil => simp [runSlabs]
  | cons s rest ih =>
    by_cases hr : r ≤ 0
    · simp [runSlabs, hr]
    · intro row hrow
      simp only [runSlabs, if_neg hr, List.mem_cons] at hrow
      rcases hrow with rfl | hrow
      · simp [mkRow]
      · exact ih _ row hrow

/-- Every emitted breakup row consumed strictly positive units (the loop
only runs a slab while `remainingUnits > 0` and all capacities are
positive). -/
lemma runSlabs_units_pos (slabs : List Slab) (hc : ∀ s ∈ slabs, capPos s) (r : ℚ) :
    ∀ row ∈ (runSlabs slabs r).1, 0 < row.units := by
  induction slabs generalizing r with
  | nil => simp [runSlabs]
  | cons s rest ih =>
    by_cases hr : r ≤ 0
    · simp [runSlabs, hr]
    · intro row hrow
      simp only [runSlabs, if_neg hr, List.mem_cons] at hrow
      rcases hrow with rfl | hrow
      · exact slabConsume_pos s (hc s (by simp)) (lt_of_not_le hr)
      · exact ih (fun s' hs' => hc s' (by simp [hs'])) _ row hrow

/-- Exact partition: when the slab table ends in an unbounded slab, the
units consumed across the emitted rows sum to the input. -/
lemma runSlabs_units_sum (slabs : List Slab) (hinf : ∃ s ∈ slabs, s.to_ = none)
    {r : ℚ} (h0 : 0 ≤ r) :
    ((runSlabs slabs r).1.map (·.units)).sum = r := by
  induction slabs generalizing r with
  | nil => simp at hinf
  | cons s rest ih =>
    by_cases hr : r ≤ 0
    · have : r = 0 := le_antisymm hr h0
      simp [runSlabs, hr, this]
    · simp only [runSlabs, if_neg hr, List.map_cons, List.sum_cons, mkRow]
      cases hs : s.to_ with
      | none =>
        have hcons : slabConsume s r = r := by simp [slabConsume, hs]
        rw [hcons, sub_self, runSlabs_nonpos rest (le_refl 0)]
        simp
      | some t =>
        have hrest : ∃ s' ∈ rest, s'.to_ = none := by
          rcases hinf with ⟨s', hs', hnone⟩
          rcases List.mem_cons.mp hs' with rfl | hmem
          · rw [hs] at hnone; cases hnone
          · exact ⟨s', hmem, hnone⟩
        have hsub : (0 : ℚ) ≤ r - slabConsume s r :=
          sub_nonneg.mpr (slabConsume_le s r)
        rw [ih hrest hsub]
        ring

/-- The unrounded accumulated total is nonnegative whenever all rates are
nonnegative and capacities positive. -/
lemma runSlabs_total_nonneg (slabs : List Slab)
    (hrate : ∀ s ∈ slabs, 0 ≤ s.rate) (hc : ∀ s ∈ slabs, capPos s) (r : ℚ) :
    0 ≤ (runSlabs slabs r).2 := by
  induction slabs generalizing r with
  | nil => simp [runSlabs]
  | cons s rest ih =>
    by_cases hr : r ≤ 0
    · simp [runSlabs, hr]
    · simp only [runSlabs, if_neg hr]
      have h1 : 0 ≤ slabConsume s r :=
        (slabConsume_pos s (hc s (by simp)) (lt_of_not_le hr)).le
      have h2 : 0 ≤ s.rate := hrate s (by simp)
      have h3 := ih (fun s' hs' => hrate s' (by simp [hs']))
        (fun s' hs' => hc s' (by simp [hs'])) (r - slabConsume s r)
      positivity

/-- The unrounded accumulated total is monotone in the units consumed. -/
lemma runSlabs_total_mono (slabs : List Slab)
    (hrate : ∀ s ∈ slabs, 0 ≤ s.rate) (hc : ∀ s ∈ slabs, capPos s)
    {r₁ r₂ : ℚ} (h : r₁ ≤ r₂) :
    (runSlabs slabs r₁).2 ≤ (runSlabs slabs r₂).2 := by
  induction slabs generalizing r₁ r₂ with
  | nil => simp [runSlabs]
  | cons s rest ih =>
    by_cases h2 : r₂ ≤ 0
    · have h1 : r₁ ≤ 0 := le_trans h h2
      simp [runSlabs, h1, h2]
    · by_cases h1 : r₁ ≤ 0
      · simp only [runSlabs, if_pos h1, if_neg h2]
        have hcons : 0 ≤ slabConsume s r₂ :=
          (slabConsume_pos s (hc s (by simp)) (lt_of_not_le h2)).le
        have hrs : 0 ≤ s.rate := hrate s (by simp)
        have htail := runSlabs_total_nonneg rest
          (fun s' hs' => hrate s' (by simp [hs']))
          (fun s' hs' => hc s' (by simp [hs'])) (r₂ - slabConsume s r₂)
        positivity
      · simp only [runSlabs, if_neg h1, if_neg h2]
        have hcons : slabConsume s r₁ ≤ slabConsume s r₂ := slabConsume_mono s h
        have hrs : 0 ≤ s.rate := hrate s (by simp)
        have htail := ih (fun s' hs' => hrate s' (by simp [hs']))
          (fun s' hs' => hc s' (by simp [hs'])) (sub_slabConsume_mono s h)
        have := mul_le_mul_of_nonneg_right hcons hrs
        linarith

lemma tnebSlabs_rate_nonneg : ∀ s ∈ tnebSlabs, 0 ≤ s.rate := by
  intro s hs
  fin_cases hs <;> norm_num

lemma tnebSlabs_capPos : ∀ s ∈ tnebSlabs, capPos s := by
  intro s hs
  fin_cases hs <;> intro t ht <;> cases ht <;> norm_num

lemma tnebSlabs_has_unbounded : ∃ s ∈ tnebSlabs, s.to_ = none :=
  ⟨⟨1001, none, 8⟩, by simp [tnebSlabs], rfl⟩

lemma round2_div_mul_close (x : ℚ) (d : ℕ) (hd : 0 < d) :
    |round2 (x / (d : ℚ)) * (d : ℚ) - round2 x| ≤ ((d : ℚ) + 1) / 200 := by
  have hd0 : (0 : ℚ) < d := by exact_mod_cast hd
  have h1 : |round2 (x / (d : ℚ)) - x / (d : ℚ)| ≤ 1 / 200 := abs_round2_sub _
  have h2 : |round2 x - x| ≤ 1 / 200 := abs_round2_sub _
  have hxd : x / (d : ℚ) * (d : ℚ) = x := div_mul_cancel₀ x hd0.ne'
  have key : round2 (x / (d : ℚ)) * (d : ℚ) - round2 x
      = (round2 (x / (d : ℚ)) - x / (d : ℚ)) * (d : ℚ) + (x - round2 x) := by
    rw [sub_mul, hxd]; ring
  rw [key]
  calc |(round2 (x / (d:ℚ)) - x / (d:ℚ)) * (d:ℚ) + (x - round2 x)|
      ≤ |(round2 (x / (d:ℚ)) - x / (d:ℚ)) * (d:ℚ)| + |x - round2 x| := abs_add _ _
    _ = |round2 (x / (d:ℚ)) - x / (d:ℚ)| * (d:ℚ) + |x - round2 x| := by
        rw [abs_mul, abs_of_pos hd0]
    _ ≤ (1 / 200) * (d:ℚ) + 1 / 200 := by
        have hm := mul_le_mul_of_nonneg_right h1 hd0.le
        have h2' : |x - round2 x| ≤ 1 / 200 := by rw [abs_sub_comm]; exact h2
        linarith
    _ = ((d:ℚ) + 1) / 200 := by ring

/-- Claim C1: the code disagrees with the specified scenario.
`calculateBill 150` consumes `min(150, 100 - 0 + 1) = 101` units in the
0–100 slab, so it returns `total_amount = 110.25 (= 441/4)` with rows of
101 and 49 units — not the specified `112.50 (= 225/2)` with rows of 100
and 50 units. -/
theorem C1_calculateBill_150 :
    (calculateBill 150).total_amount = 441 / 4
    ∧ ((calculateBill 150).breakup.map fun row =>
        (row.from_, row.units, row.rate, row.amount))
      = [(0, 101, 0, 0), (101, 49, 9/4, 441/4)]
    ∧ (calculateBill 150).total_amount ≠ 225 / 2 := by
  refine ⟨?_, ?_, ?_⟩ <;>
    norm_num [calculateBill, runSlabs, tnebSlabs, slabConsume, mkRow, round2, min_def]

/-- Claim C2: for every `units ≥ 0` the slab walk partitions the input
exactly (the emitted rows' units sum to the input), emits no zero-unit
row, and stores each row's amount as `round(units_in_slab * rate, 2)`. -/
theorem C2_calculateBill_partition (u : ℚ) (hu : 0 ≤ u) :
    ((calculateBill u).breakup.map (·.units)).sum = u
    ∧ (∀ row ∈ (calculateBill u).breakup, 0 < row.units)
    ∧ (∀ row ∈ (calculateBill u).breakup, row.amount = round2 (row.units * row.rate)) :=
  ⟨runSlabs_units_sum tnebSlabs tnebSlabs_has_unbounded hu,
   runSlabs_units_pos tnebSlabs tnebSlabs_capPos u,
   runSlabs_amount tnebSlabs u⟩

/-- Claim C2 witness: the partition property instantiated at 150 units. -/
theorem C2_witness :
    (0 : ℚ) ≤ 150
    ∧ (((calculateBill 150).breakup.map (·.units)).sum = 150
       ∧ (∀ row ∈ (calculateBill 150).breakup, 0 < row.units)
       ∧ (∀ row ∈ (calculateBill 150).breakup,
            row.amount = round2 (row.units * row.rate))) :=
  ⟨by norm_num, C2_calculateBill_partition 150 (by norm_num)⟩

/-- Claim C3 counterexample: on input 0 neither calculator returns a
`BillResult` with an empty breakup and total 0 — the quantum calculator
silently returns no result and the bill calculator sets the
invalid-units error. -/
theorem C3_zero_units_counterexample :
    quantumCalculate (some 0) = none
    ∧ billCalculatorSubmit (some 0) =
        .reject "Please enter a valid number of units (greater than 0)" := by
  constructor <;> rfl

/-- Claim C3 amended: an input that is 0, negative or `NaN` is rejected
as invalid — `quantum-calculator` returns without producing any
`BillResult`, and `bill-calculator` reports the invalid-units error
message — rather than yielding an empty bill or a clamped result. -/
theorem C3_invalid_units_rejected (q : ℚ) (hq : q ≤ 0) :
    quantumCalculate (some q) = none
    ∧ quantumCalculate none = none
    ∧ billCalculatorSubmit (some q) =
        .reject "Please enter a valid number of units (greater than 0)"
    ∧ billCalculatorSubmit none =
        .reject "Please enter a valid number of units (greater than 0)" := by
  refine ⟨?_, rfl, ?_, rfl⟩
  · simp [quantumCalculate, hq]
  · simp [billCalculatorSubmit, hq]

/-- Claim C3 witness: the amended rejection behaviour at input -5. -/
theorem C3_witness :
    (-5 : ℚ) ≤ 0
    ∧ (quantumCalculate (some (-5)) = none
       ∧ quantumCalculate none = none
       ∧ billCalculatorSubmit (some (-5)) =
           .reject "Please enter a valid number of units (greater than 0)"
       ∧ billCalculatorSubmit none =
           .reject "Please enter a valid number of units (greater than 0)") :=
  ⟨by norm_num, C3_invalid_units_rejected (-5) (by norm_num)⟩

/-- Claim C4: in every forecast result — the client-side fallback and the
(spec-modelled) server result alike — the daily averages are derived as
`predicted_kwh / horizonDays` and `bill.total_amount / horizonDays`, so
`daily_avg_kwh * horizonDays` recovers `predicted_kwh` and
`daily_avg_cost * horizonDays` recovers `bill.total_amount` within the
two-decimal rounding applied per field. -/
theorem C4_forecast_roundtrip (P B : ℚ) (d : ℕ) (conf : String) (hd : 0 < d) :
    ((fallbackForecast P B d).daily_avg_kwh = round2 (fallbackRaw P d / (d : ℚ))
     ∧ (fallbackForecast P B d).predicted_kwh = round2 (fallbackRaw P d)
     ∧ (fallbackForecast P B d).daily_avg_cost = round2 (fallbackRaw B d / (d : ℚ))
     ∧ (fallbackForecast P B d).bill.total_amount = round2 (fallbackRaw B d)
     ∧ |(fallbackForecast P B d).daily_avg_kwh * (d : ℚ)
          - (fallbackForecast P B d).predicted_kwh| ≤ ((d : ℚ) + 1) / 200
     ∧ |(fallbackForecast P B d).daily_avg_cost * (d : ℚ)
          - (fallbackForecast P B d).bill.total_amount| ≤ ((d : ℚ) + 1) / 200)
    ∧ ((serverForecast P B d conf).daily_avg_kwh * (d : ℚ)
         = (serverForecast P B d conf).predicted_kwh
       ∧ (serverForecast P B d conf).daily_avg_cost * (d : ℚ)
         = (serverForecast P B d conf).bill.total_amount) := by
  have hd0 : (0 : ℚ) < d := by exact_mod_cast hd
  refine ⟨⟨rfl, rfl, rfl, rfl, ?_, ?_⟩, ?_, ?_⟩
  · exact round2_div_mul_close (fallbackRaw P d) d hd
  · exact round2_div_mul_close (fallbackRaw B d) d hd
  · exact div_mul_cancel₀ P hd0.ne'
  · exact div_mul_cancel₀ B hd0.ne'

/-- Claim C4 witness: the round-trip invariant instantiated for a 30 kWh
base prediction, a 60 rupee base bill and a 15-day horizon. -/
theorem C4_witness :
    0 < 15
    ∧ (((fallbackForecast 30 60 15).daily_avg_kwh = round2 (fallbackRaw 30 15 / (15 : ℚ))
        ∧ (fallbackForecast 30 60 15).predicted_kwh = round2 (fallbackRaw 30 15)
        ∧ (fallbackForecast 30 60 15).daily_avg_cost = round2 (fallbackRaw 60 15 / (15 : ℚ))
        ∧ (fallbackForecast 30 60 15).bill.total_amount = round2 (fallbackRaw 60 15)
        ∧ |(fallbackForecast 30 60 15).daily_avg_kwh * (15 : ℚ)
             - (fallbackForecast 30 60 15).predicted_kwh| ≤ ((15 : ℚ) + 1) / 200
        ∧ |(fallbackForecast 30 60 15).daily_avg_cost * (15 : ℚ)
             - (fallbackForecast 30 60 15).bill.total_amount| ≤ ((15 : ℚ) + 1) / 200)
       ∧ ((serverForecast 30 60 15 "model").daily_avg_kwh * (15 : ℚ)
            = (serverForecast 30 60 15 "model").predicted_kwh
          ∧ (serverForecast 30 60 15 "model").daily_avg_cost * (15 : ℚ)
            = (serverForecast 30 60 15 "model").bill.total_amount)) :=
  ⟨by norm_num, C4_forecast_roundtrip 30 60 15 "model" (by norm_num)⟩

/-- Claim C5 counterexample: the fallback result is tagged "estimated",
but its `predicted_kwh` is not exactly the base daily average times the
horizon — `toFixed(2)` rounds it.  With a base 30-day prediction of
0.001 kWh and a 30-day horizon the product is 0.001 while the emitted
value is 0.00. -/
theorem C5_fallback_not_exact :
    (fallbackForecast (1/1000) 0 30).predicted_kwh ≠ ((1/1000 : ℚ) / 30) * 30 := by
  norm_num [fallbackForecast, fallbackRaw, round2, round_eq]

/-- Claim C5 amended: the degraded client-side fallback is tagged
`confidence = "estimated"` and its `predicted_kwh` equals the base
average daily energy (`baseData.predicted_kwh / 30`) multiplied by the
horizon in days, rounded to two decimal places by `toFixed(2)`. -/
theorem C5_fallback_estimated (P B : ℚ) (d : ℕ) :
    (fallbackForecast P B d).confidence = "estimated"
    ∧ (fallbackForecast P B d).predicted_kwh = round2 ((P / 30) * (d : ℚ)) := by
  have harg : fallbackRaw P d = (P / 30) * (d : ℚ) := by
    unfold fallbackRaw; ring
  exact ⟨rfl, by rw [show (fallbackForecast P B d).predicted_kwh
    = round2 (fallbackRaw P d) from rfl, harg]⟩

/-- Claim C6: the displayed bill total is monotone in consumption — for
`u₂ ≥ u₁ ≥ 0`, `calculateBill u₂` charges at least as much as
`calculateBill u₁` (all slab rates are nonnegative). -/
theorem C6_total_mono (u₁ u₂ : ℚ) (h0 : 0 ≤ u₁) (h : u₁ ≤ u₂) :
    (calculateBill u₁).total_amount ≤ (calculateBill u₂).total_amount :=
  round2_mono (runSlabs_total_mono tnebSlabs tnebSlabs_rate_nonneg tnebSlabs_capPos h)

/-- Claim C6 witness: monotonicity instantiated at 100 and 200 units. -/
theorem C6_witness :
    ((0 : ℚ) ≤ 100 ∧ (100 : ℚ) ≤ 200)
    ∧ (calculateBill 100).total_amount ≤ (calculateBill 200).total_amount :=
  ⟨⟨by norm_num, by norm_num⟩, C6_total_mono 100 200 (by norm_num) (by norm_num)⟩

/-- Claim C7: the `days` parameter of the forecast tool is accepted only
as an integer within 1..365, the accepted value is exactly the supplied
one (never coerced), and any value outside [1, 365] is rejected. -/
theorem C7_horizon_bounds :
    (∀ (q v : ℚ), validateDaysParam (some q) = .accepted v →
        v = q ∧ 1 ≤ v ∧ v ≤ 365 ∧ v.den = 1)
    ∧ (∀ q : ℚ, q < 1 ∨ 365 < q →
        ∀ v, validateDaysParam (some q) ≠ .accepted v) := by
  constructor
  · intro q v h
    unfold validateDaysParam at h
    dsimp only at h
    split_ifs at h with h1 h2 h3
    injection h with hv
    exact ⟨hv.symm, hv ▸ not_lt.mp h2, hv ▸ not_lt.mp h3, hv ▸ not_not.mp h1⟩
  · intro q hq v h
    unfold validateDaysParam at h
    dsimp only at h
    split_ifs at h with h1 h2 h3
    rcases hq with hq | hq
    · exact absurd hq h2
    · exact absurd hq h3

/-- Claim C7 witness: 30 is accepted unchanged and 400 is rejected. -/
theorem C7_witness :
    ((30 : ℚ) = 30 ∧ 1 ≤ (30 : ℚ) ∧ (30 : ℚ) ≤ 365 ∧ (30 : ℚ).den = 1)
    ∧ (∀ v, validateDaysParam (some 400) ≠ .accepted v) :=
  ⟨C7_horizon_bounds.1 30 30 (by decide),
   C7_horizon_bounds.2 400 (Or.inr (by norm_num))⟩

/-- Claim C8: the chat-tool fetch helper gives every backend call — the
weather lookup included — a default timeout of 10000 ms; the weather
tool converts any failed or timed-out lookup into an error-tagged value
instead of letting the failure escape; and (modelled from the spec) the
weather lookup is the analytical core's only network operation. -/
theorem C8_weather_degrades :
    fetchJSONDefaultTimeoutMs = 10000
    ∧ coreNetworkOperations = ["weather-lookup"]
    ∧ ∀ (city e : String),
        getWeatherDataExecute city (Except.error e) =
          ToolOutput.errorTagged
            ("Failed to fetch weather data for " ++ city ++ ": " ++ e) :=
  ⟨rfl, rfl, fun _ _ => rfl⟩

/-- Claim C9: a failed ingestion publishes nothing — whenever
`handleFile` does not end in the success status (wrong extension, no
connection, parse failure, non-array payload, network failure, or a
server rejection), the parent's reading set and recompute counter are
left exactly as they were. -/
theorem C9_failed_upload_keeps_state (a : UploadAttempt) (st : AppState)
    (h : (handleFile a st).1 ≠ .success) :
    (handleFile a st).2 = st := by
  obtain ⟨fj, conn, parse, reply⟩ := a
  cases fj
  · rfl
  · cases conn
    · rfl
    · cases parse with
      | failure => rfl
      | nonArray => rfl
      | array data =>
        cases reply with
        | none => rfl
        | some r =>
          by_cases hr : (r.ok && r.statusSuccess) = true
          · exact absurd (by simp [handleFile, hr]) h
          · simp [handleFile, hr]

/-- Claim C9 witness: a non-array payload leaves the state unchanged. -/
theorem C9_witness :
    (handleFile ⟨true, true, .nonArray, none⟩ ⟨[], 0⟩).1 ≠ .success
    ∧ (handleFile ⟨true, true, .nonArray, none⟩ ⟨[], 0⟩).2 = ⟨[], 0⟩ :=
  ⟨by simp [handleFile], C9_failed_upload_keeps_state _ _ (by simp [handleFile])⟩

/-- Claim C10: the bill-calculator interface refuses every units value
above 10000 with an input error before issuing the backend tariff
request, so no bill is requested or produced for such inputs. -/
theorem C10_upper_limit (q : ℚ) (h : 10000 < q) :
    billCalculatorSubmit (some q) =
      .reject "Units seem too high. Please check your input." := by
  have h0 : ¬ q ≤ 0 := by linarith
  simp [billCalculatorSubmit, h0, h]

/-- Claim C10 witness: 10001 units are refused. -/
theorem C10_witness :
    (10000 : ℚ) < 10001
    ∧ billCalculatorSubmit (some 10001) =
        .reject "Units seem too high. Please check your input." :=
  ⟨by norm_num, C10_upper_limit 10001 (by norm_num)⟩
